import Mathlib

/-!
Shallow embedding of the XJR-3 read-tracking core: the paper/read data
model, the mark-read route (POST /api/papers/mark-read), the user-scoped
read removal (DELETE /api/papers/mark-read), the search engine
(GET /api/papers/search-papers) and the configuration routes
(GET/POST /api/admin/config), translated from src/shared/utils.js
(the papers router), src/shared/paper.js (the Mongoose schemas),
src/admin/pages/tools.js (the admin router) and src/backend/server.js.
-/

/-- Read subdocument, from the Mongoose ReadSchema: user and notes are
required strings, timestamp a date, and Mongoose assigns each
subdocument an `_id` (here `entryId`). Timestamps are modelled as Nat. -/
structure ReadEntry where
  entryId : String
  user : String
  timestamp : Nat
  notes : String
deriving DecidableEq, Repr

/-- Stored paper metadata, from the Mongoose PaperSchema `metadata`
object: title and abstract required strings, authors an array of
strings, publishYear a required number. -/
structure Metadata where
  title : String
  authors : List String
  abstract : String
  publishYear : Int
deriving DecidableEq, Repr

/-- Stored paper document, from the Mongoose PaperSchema: an externally
supplied unique string id, metadata, and an array of Read entries. -/
structure Paper where
  id : String
  metadata : Metadata
  reads : List ReadEntry
deriving DecidableEq, Repr

/-- Request-body metadata as received by POST /mark-read before
validation; `none` models an absent or null JSON field. -/
structure MetadataInput where
  title : Option String
  authors : Option (List String)
  abstract : Option String
  publishYear : Option Int
deriving DecidableEq, Repr

/-- Request-body read object as received by POST /mark-read before
validation; `none` models an absent or null JSON field. -/
structure ReadInput where
  user : Option String
  notes : Option String
deriving DecidableEq, Repr

/-- Joi metadataSchema of src/shared/utils.js: title, abstract required
non-empty strings (Joi.string() disallows the empty string), authors a
required array of non-empty strings, publishYear a required integer
with min 1900 and no upper bound. An absent or null field fails
`.required()` / the string or number type check. -/
def validMetadataInput (m : MetadataInput) : Bool :=
  (match m.title with | some t => !t.isEmpty | none => false) &&
  (match m.authors with | some as => as.all (fun a => !a.isEmpty) | none => false) &&
  (match m.abstract with | some a => !a.isEmpty | none => false) &&
  (match m.publishYear with | some y => 1900 ≤ y | none => false)

/-- Joi readSchema of src/shared/utils.js: user and notes are both
required non-empty strings (Joi.string().required() rejects an absent
field and the empty string). -/
def validReadInput (r : ReadInput) : Bool :=
  (match r.user with | some u => !u.isEmpty | none => false) &&
  (match r.notes with | some n => !n.isEmpty | none => false)

/-- Stored metadata built from a validated metadata input (the defaults
are never used on the validated path). -/
def mkMetadata (m : MetadataInput) : Metadata :=
  { title := m.title.getD ""
    authors := m.authors.getD []
    abstract := m.abstract.getD ""
    publishYear := m.publishYear.getD 0 }

/-- Duplicate test of the mark-read route: some existing read has the
same user and the same notes as the candidate, with exact (===)
string equality on both. -/
def isDuplicate (reads : List ReadEntry) (user notes : String) : Bool :=
  reads.any (fun r => r.user == user && r.notes == notes)

/-- Outcome of POST /mark-read: 400 on Joi validation failure, 409 when
the duplicate check rejects, 200 with the saved paper on success. -/
inductive MarkReadOutcome where
  | validationFailed
  | duplicateRejected
  | accepted (paper : Paper)
deriving DecidableEq, Repr

/-- POST /api/papers/mark-read (src/shared/utils.js lines 99-142):
validate metadata and read with Joi; build the new read entry from the
authenticated user id, the server clock and the candidate notes; find
the paper by id; if found and preventDuplicateReads is set, reject when
an existing read has the same (user, notes); otherwise append the entry
and save; if no paper exists, create one with the supplied metadata and
the single new read. `prevent` is the boolean the route reads from the
shared config module, `now` the server timestamp, `freshId` the
subdocument id Mongoose assigns. -/
def markRead (prevent : Bool) (store : List Paper) (pid : String)
    (md : MetadataInput) (rd : ReadInput) (authUser : String)
    (now : Nat) (freshId : String) : MarkReadOutcome × List Paper :=
  if !(validMetadataInput md && validReadInput rd) then
    (.validationFailed, store)
  else
    let entry : ReadEntry :=
      { entryId := freshId, user := authUser, timestamp := now
        notes := rd.notes.getD "" }
    match store.find? (fun p => p.id == pid) with
    | some paper =>
      if prevent && isDuplicate paper.reads entry.user entry.notes then
        (.duplicateRejected, store)
      else
        let updated := { paper with reads := paper.reads ++ [entry] }
        (.accepted updated,
         store.map (fun q => if q.id == pid then updated else q))
    | none =>
      let newPaper : Paper :=
        { id := pid, metadata := mkMetadata md, reads := [entry] }
      (.accepted newPaper, store ++ [newPaper])

/-- Case-insensitive containment over character lists: some suffix of
the haystack starts with the needle. Models the test of the
case-insensitive regular expression `new RegExp(keyword, 'i')` for a
keyword without regex metacharacters, i.e. case-insensitive substring
containment (JS String.prototype.includes after lower-casing). -/
def charsContain (hay needle : List Char) : Bool :=
  match hay with
  | [] => needle.isEmpty
  | _ :: t => List.isPrefixOf needle hay || charsContain t needle

/-- Case-insensitive match of a keyword against a text field, as the
search route's `searchRegex` (RegExp with the 'i' flag) behaves on a
literal keyword. -/
def ciContains (text pat : String) : Bool :=
  charsContain (text.data.map Char.toLower) (pat.data.map Char.toLower)

/-- Query parameters of GET /api/papers/search-papers after Joi
validation; `none` models an omitted filter. -/
structure SearchCriteria where
  keyword : Option String
  user : Option String
  publishYear : Option Int
deriving DecidableEq, Repr

/-- Keyword branch of the search route's $match: the case-insensitive
regex is tried against metadata.title, metadata.authors (a Mongo query
on an array field matches if any element matches) and
metadata.abstract, combined with $or. -/
def keywordMatches (kw : String) (m : Metadata) : Bool :=
  ciContains m.title kw || m.authors.any (fun a => ciContains a kw) ||
    ciContains m.abstract kw

/-- The $match stage built by GET /search-papers (src/shared/utils.js
lines 204-225): the keyword $or, `reads.user` equality (any array
element) and exact `metadata.publishYear` equality are separate keys of
one condition object, hence conjunctive; an omitted filter adds no
condition. -/
def matchesCriteria (c : SearchCriteria) (p : Paper) : Bool :=
  (match c.keyword with
   | none => true
   | some kw => keywordMatches kw p.metadata) &&
  (match c.user with
   | none => true
   | some u => p.reads.any (fun r => r.user == u)) &&
  (match c.publishYear with
   | none => true
   | some y => p.metadata.publishYear == y)

/-- Documents surviving the $match stage, in store order: the pipeline
applies no $sort, so the aggregation yields documents in the order the
store holds them. -/
def matchedPapers (store : List Paper) (c : SearchCriteria) : List Paper :=
  store.filter (matchesCriteria c)

/-- GET /api/papers/search-papers (src/shared/utils.js lines 204-257):
after the $match, the $facet stage feeds the same matched documents to
a $count sub-pipeline (totalCount) and to a $skip (page-1)*limit /
$limit sub-pipeline (the returned page); when $count yields no document
the route substitutes 0, which equals the matched length. -/
def searchPapers (store : List Paper) (c : SearchCriteria)
    (page limit : Nat) : List Paper × Nat :=
  let matched := matchedPapers store c
  ((matched.drop ((page - 1) * limit)).take limit, matched.length)

/-- Filter of the user-scoped DELETE /api/papers/mark-read
findOneAndUpdate (src/shared/utils.js lines 281-285): a document
matches when its id equals the given id, some read subdocument has the
given _id, and some read subdocument (not necessarily the same one,
since the query uses two independent dotted paths without $elemMatch)
has the acting user. -/
def removeFilterMatches (pid eid uid : String) (p : Paper) : Bool :=
  p.id == pid && p.reads.any (fun r => r.entryId == eid) &&
    p.reads.any (fun r => r.user == uid)

/-- The $pull update of DELETE /api/papers/mark-read: removes exactly
the array elements whose _id and user both equal the given values
($pull with a document condition tests both fields on the same
element). -/
def pullRead (eid uid : String) (reads : List ReadEntry) : List ReadEntry :=
  reads.filter (fun r => !(r.entryId == eid && r.user == uid))

/-- DELETE /api/papers/mark-read (src/shared/utils.js lines 265-296):
findOneAndUpdate with the scoped filter and the $pull update, returning
the updated document; `none` models the null result, on which the
route answers 404, while a `some` result is answered with 200
"Read entry removed successfully". -/
def removeRead (store : List Paper) (pid eid uid : String) :
    Option (Paper × List Paper) :=
  match store.find? (removeFilterMatches pid eid uid) with
  | none => none
  | some p =>
    let updated := { p with reads := pullRead eid uid p.reads }
    some (updated, store.map (fun q => if q.id == p.id then updated else q))

/-- Whole-process state: the Paper collection, the Config collection
(at most one document, holding preventDuplicateReads), and the value of
the `preventDuplicateReads` property of the shared config module that
the mark-read route requires as ../../shared/config. -/
structure SysState where
  papers : List Paper
  configDoc : Option Bool
  sharedConfig : Bool
deriving DecidableEq, Repr

/-- Modelled from the spec: the file shared/config.js itself is not in
src (only its require sites and its jest mock are). The spec gives the
config flag the default false, and the backend tests mock the module as
the plain object with preventDuplicateReads false that mark-read reads
synchronously; no route in src writes this module. It is therefore
modelled as the process-local boolean `SysState.sharedConfig`, default
false, and the initial process state carries that default. -/
def initialSharedConfig : Bool := false

/-- POST /api/admin/config (src/admin/pages/tools.js lines 608-629):
findOneAndUpdate on the Config collection with upsert, setting
preventDuplicateReads to the validated boolean; responds with the
stored value. It does not touch the shared config module. -/
def setConfig (s : SysState) (v : Bool) : SysState × Bool :=
  ({ s with configDoc := some v }, v)

/-- GET /api/admin/config (src/admin/pages/tools.js lines 597-605):
reads the Config document and answers its preventDuplicateReads, or
false when no document exists. -/
def getConfig (s : SysState) : Bool :=
  s.configDoc.getD false

/-- POST /api/papers/mark-read at the process level: the route reads
its duplicate-prevention boolean from the shared config module
(`config.preventDuplicateReads` with config required from
../../shared/config), not from the Config collection. -/
def markReadSys (s : SysState) (pid : String) (md : MetadataInput)
    (rd : ReadInput) (authUser : String) (now : Nat) (freshId : String) :
    MarkReadOutcome × SysState :=
  let (o, ps) := markRead s.sharedConfig s.papers pid md rd authUser now freshId
  (o, { s with papers := ps })

/-- First atomic phase of mark-read on an existing paper: the awaited
`Paper.findOne` resolves with a snapshot of the stored reads array.
Everything up to the next await runs without interleaving. -/
def markReadSnapshot (reads : List ReadEntry) : List ReadEntry := reads

/-- Second atomic phase of mark-read on an existing paper: the
duplicate check runs against the snapshot taken by the earlier
findOne, and on acceptance the save appends the pushed entry to the
stored array. Returns (accepted?, stored reads after the phase). -/
def markReadCommit (prevent : Bool) (snap : List ReadEntry)
    (cand : ReadEntry) (stored : List ReadEntry) : Bool × List ReadEntry :=
  if prevent && isDuplicate snap cand.user cand.notes then
    (false, stored)
  else
    (true, stored ++ [cand])

/-- Two mark-read requests on the same existing paper, run to
completion one after the other: each request snapshots, checks and
commits before the other starts. -/
def twoMarkReadsSerial (prevent : Bool) (c1 c2 : ReadEntry)
    (reads0 : List ReadEntry) : Bool × Bool × List ReadEntry :=
  let snap1 := markReadSnapshot reads0
  let (o1, r1) := markReadCommit prevent snap1 c1 reads0
  let snap2 := markReadSnapshot r1
  let (o2, r2) := markReadCommit prevent snap2 c2 r1
  (o1, o2, r2)

/-- Two concurrent mark-read requests on the same existing paper,
interleaved as findOne-1, findOne-2, save-1, save-2: both awaited
findOne calls resolve before either request reaches its save, so both
duplicate checks run against the same pre-insert snapshot. This is a
legal scheduling of the route's two awaits, which bracket no lock or
conditional storage update. -/
def twoMarkReadsInterleaved (prevent : Bool) (c1 c2 : ReadEntry)
    (reads0 : List ReadEntry) : Bool × Bool × List ReadEntry :=
  let snap1 := markReadSnapshot reads0
  let snap2 := markReadSnapshot reads0
  let (o1, r1) := markReadCommit prevent snap1 c1 reads0
  let (o2, r2) := markReadCommit prevent snap2 c2 r1
  (o1, o2, r2)

/-- C2: on a paper that already holds a read with user u and notes x,
a mark-read by the same authenticated user with the same notes is
answered duplicateRejected with the store untouched when
preventDuplicateReads is true, and accepted when it is false, in which
case exactly the new entry is appended and the reads length grows by
exactly one; the duplicate test is exact string equality on the
(user, notes) pair. -/
theorem markRead_duplicate_policy (store : List Paper) (paper : Paper)
    (pid : String) (md : MetadataInput) (rd : ReadInput) (u x : String)
    (now : Nat) (fid : String)
    (hfind : store.find? (fun p => p.id == pid) = some paper)
    (hmd : validMetadataInput md = true)
    (hrd : validReadInput rd = true)
    (hnotes : rd.notes = some x)
    (hdup : isDuplicate paper.reads u x = true) :
    markRead true store pid md rd u now fid = (.duplicateRejected, store) ∧
    markRead false store pid md rd u now fid =
      (.accepted { paper with reads := paper.reads ++ [⟨fid, u, now, x⟩] },
       store.map (fun q => if q.id == pid then
         { paper with reads := paper.reads ++ [⟨fid, u, now, x⟩] } else q)) ∧
    (paper.reads ++ [(⟨fid, u, now, x⟩ : ReadEntry)]).length
      = paper.reads.length + 1 := by
  unfold markRead
  simp [hmd, hrd, hfind, hnotes, hdup]

/-- C2 witness: concrete duplicate submission under
preventDuplicateReads = true is rejected and leaves the store as it
was. -/
theorem markRead_duplicate_policy_witness :
    markRead true [⟨"p", ⟨"Neural Nets", ["Doe"], "abs", 2020⟩, [⟨"r1", "A", 0, "x"⟩]⟩]
      "p" ⟨some "T", some ["Au"], some "Abs", some 2020⟩ ⟨some "A", some "x"⟩ "A" 5 "r3"
    = (.duplicateRejected,
       [⟨"p", ⟨"Neural Nets", ["Doe"], "abs", 2020⟩, [⟨"r1", "A", 0, "x"⟩]⟩]) :=
  (markRead_duplicate_policy
    [⟨"p", ⟨"Neural Nets", ["Doe"], "abs", 2020⟩, [⟨"r1", "A", 0, "x"⟩]⟩]
    ⟨"p", ⟨"Neural Nets", ["Doe"], "abs", 2020⟩, [⟨"r1", "A", 0, "x"⟩]⟩
    "p" ⟨some "T", some ["Au"], some "Abs", some 2020⟩ ⟨some "A", some "x"⟩
    "A" "x" 5 "r3"
    (by decide) (by decide) (by decide) (by decide) (by decide)).1

/-- C4: a mark-read on a never-seen id appends exactly one new Paper
built from the supplied metadata with a single-element reads list; a
second mark-read on the same id with different metadata md2 leaves the
stored metadata at the value established by the first call (md2 is
ignored) and only appends a second read entry. `hnd` states that the
second call passes the duplicate gate. -/
theorem markRead_upsert_metadata_immutable (store : List Paper) (pid : String)
    (md md2 : MetadataInput) (rd rd2 : ReadInput) (u1 u2 : String)
    (t1 t2 : Nat) (f1 f2 : String) (prevent1 prevent2 : Bool)
    (habs : store.find? (fun p => p.id == pid) = none)
    (hmd : validMetadataInput md = true) (hrd : validReadInput rd = true)
    (hmd2 : validMetadataInput md2 = true) (hrd2 : validReadInput rd2 = true)
    (hnd : (prevent2 &&
      isDuplicate [⟨f1, u1, t1, rd.notes.getD ""⟩] u2 (rd2.notes.getD "")) = false) :
    markRead prevent1 store pid md rd u1 t1 f1 =
      (.accepted ⟨pid, mkMetadata md, [⟨f1, u1, t1, rd.notes.getD ""⟩]⟩,
       store ++ [⟨pid, mkMetadata md, [⟨f1, u1, t1, rd.notes.getD ""⟩]⟩]) ∧
    markRead prevent2
        (store ++ [⟨pid, mkMetadata md, [⟨f1, u1, t1, rd.notes.getD ""⟩]⟩])
        pid md2 rd2 u2 t2 f2 =
      (.accepted ⟨pid, mkMetadata md,
         [⟨f1, u1, t1, rd.notes.getD ""⟩, ⟨f2, u2, t2, rd2.notes.getD ""⟩]⟩,
       ((store ++ [⟨pid, mkMetadata md, [⟨f1, u1, t1, rd.notes.getD ""⟩]⟩] : List Paper)).map
         (fun q => if q.id == pid then
           (⟨pid, mkMetadata md,
             [⟨f1, u1, t1, rd.notes.getD ""⟩, ⟨f2, u2, t2, rd2.notes.getD ""⟩]⟩ : Paper)
          else q)) := by
  constructor
  · unfold markRead
    simp [hmd, hrd, habs]
  · unfold markRead
    rw [List.find?_append, habs]
    simp [hmd2, hrd2, hnd]

/-- C4 witness: a concrete second mark-read with different metadata
keeps the first call's metadata and appends one read. -/
theorem markRead_upsert_metadata_immutable_witness :
    markRead false [⟨"p", ⟨"T", ["Au"], "Abs", 2020⟩, [⟨"f1", "A", 1, "x"⟩]⟩]
      "p" ⟨some "T2", some ["Bu"], some "Abs2", some 1999⟩ ⟨some "B", some "y"⟩ "B" 2 "f2"
    = (.accepted ⟨"p", ⟨"T", ["Au"], "Abs", 2020⟩,
         [⟨"f1", "A", 1, "x"⟩, ⟨"f2", "B", 2, "y"⟩]⟩,
       [⟨"p", ⟨"T", ["Au"], "Abs", 2020⟩,
         [⟨"f1", "A", 1, "x"⟩, ⟨"f2", "B", 2, "y"⟩]⟩]) := by
  have h := (markRead_upsert_metadata_immutable [] "p"
    ⟨some "T", some ["Au"], some "Abs", some 2020⟩
    ⟨some "T2", some ["Bu"], some "Abs2", some 1999⟩
    ⟨some "A", some "x"⟩ ⟨some "B", some "y"⟩ "A" "B" 1 2 "f1" "f2" false false
    (by decide) (by decide) (by decide) (by decide) (by decide) (by decide)).2
  simpa [mkMetadata] using h

/-- C6: a paper is among the matched documents of a search if and only
if it is in the store and satisfies every provided criterion — keyword
matching case-insensitively against title, any author, or abstract;
user requiring some read entry with exactly that user; publishYear an
exact match — and with no filters provided every paper matches. -/
theorem searchPapers_conjunctive_match (store : List Paper) (c : SearchCriteria) :
    (∀ p : Paper, p ∈ matchedPapers store c ↔
      p ∈ store ∧
      (match c.keyword with
       | none => True
       | some kw => keywordMatches kw p.metadata = true) ∧
      (match c.user with
       | none => True
       | some u => p.reads.any (fun r => r.user == u) = true) ∧
      (match c.publishYear with
       | none => True
       | some y => p.metadata.publishYear = y)) ∧
    matchedPapers store ⟨none, none, none⟩ = store := by
  obtain ⟨k, u, y⟩ := c
  constructor
  · intro p
    cases k <;> cases u <;> cases y <;>
      simp [matchedPapers, List.mem_filter, matchesCriteria, and_assoc]
  · simp [matchedPapers, matchesCriteria]

/-- C6 witness: a concrete paper satisfying a keyword, a user and a
year filter together is matched. -/
theorem searchPapers_conjunctive_match_witness :
    (⟨"p", ⟨"Neural Nets", ["Doe"], "abs", 2020⟩, [⟨"r1", "A", 0, "x"⟩]⟩ : Paper) ∈
      matchedPapers [⟨"p", ⟨"Neural Nets", ["Doe"], "abs", 2020⟩, [⟨"r1", "A", 0, "x"⟩]⟩]
        ⟨some "neural", some "A", some 2020⟩ :=
  ((searchPapers_conjunctive_match
      [⟨"p", ⟨"Neural Nets", ["Doe"], "abs", 2020⟩, [⟨"r1", "A", 0, "x"⟩]⟩]
      ⟨some "neural", some "A", some 2020⟩).1 _).mpr
    ⟨by decide, by decide, by decide, by decide⟩

/-- C7: totalCount is the number of matched papers before pagination,
the same for every page and limit; the returned page is the matched
list with (page-1)*limit documents skipped and at most limit taken;
and a page past the available matches yields the empty page with the
unchanged totalCount rather than an error. -/
theorem searchPapers_pagination_totalCount (store : List Paper)
    (c : SearchCriteria) (page limit : Nat) :
    (searchPapers store c page limit).2 = (matchedPapers store c).length ∧
    (searchPapers store c page limit).1 =
      ((matchedPapers store c).drop ((page - 1) * limit)).take limit ∧
    (searchPapers store c page limit).1.length ≤ limit ∧
    ((matchedPapers store c).length ≤ (page - 1) * limit →
      (searchPapers store c page limit).1 = []) := by
  refine ⟨rfl, rfl, ?_, ?_⟩
  · simp [searchPapers]
  · intro h
    simp [searchPapers, List.drop_eq_nil_of_le h]

/-- C7 witness: three matching papers queried at page 4, limit 1 give
an empty page and totalCount 3. -/
theorem searchPapers_pagination_totalCount_witness :
    (searchPapers [⟨"a", ⟨"T1", ["X"], "A1", 2000⟩, []⟩,
                   ⟨"b", ⟨"T2", ["Y"], "A2", 2001⟩, []⟩,
                   ⟨"c", ⟨"T3", ["Z"], "A3", 2002⟩, []⟩]
        ⟨none, none, none⟩ 4 1).1 = [] ∧
    (searchPapers [⟨"a", ⟨"T1", ["X"], "A1", 2000⟩, []⟩,
                   ⟨"b", ⟨"T2", ["Y"], "A2", 2001⟩, []⟩,
                   ⟨"c", ⟨"T3", ["Z"], "A3", 2002⟩, []⟩]
        ⟨none, none, none⟩ 4 1).2 = 3 := by
  have h := searchPapers_pagination_totalCount
    [⟨"a", ⟨"T1", ["X"], "A1", 2000⟩, []⟩,
     ⟨"b", ⟨"T2", ["Y"], "A2", 2001⟩, []⟩,
     ⟨"c", ⟨"T3", ["Z"], "A3", 2002⟩, []⟩] ⟨none, none, none⟩ 4 1
  exact ⟨h.2.2.2 (by decide), by decide⟩

/-- C1: refuted on the code. After the admin config route stores
preventDuplicateReads = true (observable through GET /config), a
mark-read that duplicates an existing (user, notes) pair is still
accepted: the admin route writes the Config collection document while
the mark-read duplicate gate reads the shared config module's value,
which no route updates, so the boolean written by setConfig is not the
boolean read by mark-read. -/
theorem configWrite_not_observed_by_markRead :
    getConfig (setConfig ⟨[⟨"p", ⟨"T", ["Au"], "Abs", 2020⟩, [⟨"r1", "A", 0, "x"⟩]⟩],
        none, initialSharedConfig⟩ true).1 = true ∧
    (markReadSys (setConfig ⟨[⟨"p", ⟨"T", ["Au"], "Abs", 2020⟩, [⟨"r1", "A", 0, "x"⟩]⟩],
        none, initialSharedConfig⟩ true).1
      "p" ⟨some "T", some ["Au"], some "Abs", some 2020⟩ ⟨some "A", some "x"⟩
      "A" 5 "r2").1
    = .accepted ⟨"p", ⟨"T", ["Au"], "Abs", 2020⟩,
        [⟨"r1", "A", 0, "x"⟩, ⟨"r2", "A", 5, "x"⟩]⟩ := by decide

/-- C3: refuted on the code. Two mark-read calls with identical
(paper, user, notes) under preventDuplicateReads = true, interleaved at
the route's await points as findOne-1, findOne-2, save-1, save-2, are
both accepted and leave a stored duplicate, because the duplicate
check-then-append is a non-atomic read-modify-write; run serially the
same two calls give exactly one acceptance and one rejection. -/
theorem markRead_interleaving_two_accepted :
    twoMarkReadsInterleaved true ⟨"e1", "A", 1, "x"⟩ ⟨"e2", "A", 1, "x"⟩ [] =
      (true, true, [⟨"e1", "A", 1, "x"⟩, ⟨"e2", "A", 1, "x"⟩]) ∧
    twoMarkReadsSerial true ⟨"e1", "A", 1, "x"⟩ ⟨"e2", "A", 1, "x"⟩ [] =
      (true, false, [⟨"e1", "A", 1, "x"⟩]) := by decide

/-- C5: refuted on the code. For a paper whose reads are r1 owned by A
and r2 owned by B, a removal of r1 acting as B finds the paper (the
findOneAndUpdate filter tests reads._id and reads.user on independent
array elements, without $elemMatch), pulls nothing, and is answered
200 "Read entry removed successfully" with the reads intact, where the
claim requires NotFound; removal of r1 acting as A removes exactly r1;
an acting user with no read on the paper gets NotFound. -/
theorem removeRead_wrong_owner_reports_removed :
    removeRead [⟨"p", ⟨"T", ["Au"], "Abs", 2020⟩,
        [⟨"r1", "A", 0, "x"⟩, ⟨"r2", "B", 0, "y"⟩]⟩] "p" "r1" "B"
      = some (⟨"p", ⟨"T", ["Au"], "Abs", 2020⟩,
          [⟨"r1", "A", 0, "x"⟩, ⟨"r2", "B", 0, "y"⟩]⟩,
         [⟨"p", ⟨"T", ["Au"], "Abs", 2020⟩,
          [⟨"r1", "A", 0, "x"⟩, ⟨"r2", "B", 0, "y"⟩]⟩]) ∧
    removeRead [⟨"p", ⟨"T", ["Au"], "Abs", 2020⟩,
        [⟨"r1", "A", 0, "x"⟩, ⟨"r2", "B", 0, "y"⟩]⟩] "p" "r1" "A"
      = some (⟨"p", ⟨"T", ["Au"], "Abs", 2020⟩, [⟨"r2", "B", 0, "y"⟩]⟩,
         [⟨"p", ⟨"T", ["Au"], "Abs", 2020⟩, [⟨"r2", "B", 0, "y"⟩]⟩]) ∧
    removeRead [⟨"p", ⟨"T", ["Au"], "Abs", 2020⟩,
        [⟨"r1", "A", 0, "x"⟩, ⟨"r2", "B", 0, "y"⟩]⟩] "p" "r1" "C" = none := by
  decide

/-- C8: refuted on the code. The search pipeline has no $sort stage, so
the order of the returned papers is whatever order the store yields:
two stores holding the same papers (a permutation of one another)
produce differently ordered results, hence the engine defines no
deterministic order as a function of the stored data. -/
theorem searchPapers_order_depends_on_store_order :
    ([(⟨"a", ⟨"T1", ["X"], "A1", 2000⟩, []⟩ : Paper),
      ⟨"b", ⟨"T2", ["Y"], "A2", 2001⟩, []⟩]).Perm
      [⟨"b", ⟨"T2", ["Y"], "A2", 2001⟩, []⟩,
       ⟨"a", ⟨"T1", ["X"], "A1", 2000⟩, []⟩] ∧
    (searchPapers [⟨"a", ⟨"T1", ["X"], "A1", 2000⟩, []⟩,
        ⟨"b", ⟨"T2", ["Y"], "A2", 2001⟩, []⟩] ⟨none, none, none⟩ 1 10).1 =
      [⟨"a", ⟨"T1", ["X"], "A1", 2000⟩, []⟩,
       ⟨"b", ⟨"T2", ["Y"], "A2", 2001⟩, []⟩] ∧
    (searchPapers [⟨"b", ⟨"T2", ["Y"], "A2", 2001⟩, []⟩,
        ⟨"a", ⟨"T1", ["X"], "A1", 2000⟩, []⟩] ⟨none, none, none⟩ 1 10).1 =
      [⟨"b", ⟨"T2", ["Y"], "A2", 2001⟩, []⟩,
       ⟨"a", ⟨"T1", ["X"], "A1", 2000⟩, []⟩] ∧
    (⟨"a", ⟨"T1", ["X"], "A1", 2000⟩, []⟩ : Paper) ≠
      ⟨"b", ⟨"T2", ["Y"], "A2", 2001⟩, []⟩ :=
  ⟨List.Perm.swap _ _ _, by decide, by decide, by decide⟩

/-- C9: refuted on the code. The Joi metadata schema bounds publishYear
below by 1900 but has no upper bound and marks it required: the year
3000, beyond any current year, passes validation and is stored, while
a null (absent) publishYear is rejected with a validation error,
though the claim says null is accepted. -/
theorem publishYear_validation_mismatch :
    validMetadataInput ⟨some "T", some ["Au"], some "Abs", some 3000⟩ = true ∧
    validMetadataInput ⟨some "T", some ["Au"], some "Abs", none⟩ = false ∧
    (markRead false [] "p" ⟨some "T", some ["Au"], some "Abs", some 3000⟩
       ⟨some "A", some "n"⟩ "A" 0 "e1")
      = (.accepted ⟨"p", ⟨"T", ["Au"], "Abs", 3000⟩, [⟨"e1", "A", 0, "n"⟩]⟩,
         [⟨"p", ⟨"T", ["Au"], "Abs", 3000⟩, [⟨"e1", "A", 0, "n"⟩]⟩]) ∧
    (markRead false [] "p" ⟨some "T", some ["Au"], some "Abs", none⟩
       ⟨some "A", some "n"⟩ "A" 0 "e1") = (.validationFailed, []) := by decide

/-- C10: refuted on the code. The Joi read schema marks notes required
and Joi.string() rejects the empty string, so a candidate read with
absent notes or empty notes is answered with a validation error, while
one with non-empty notes passes; acceptance therefore requires a
non-empty notes value, contrary to the claim. -/
theorem notes_required_nonempty :
    validReadInput ⟨some "A", none⟩ = false ∧
    validReadInput ⟨some "A", some ""⟩ = false ∧
    validReadInput ⟨some "A", some "ok"⟩ = true ∧
    (markRead false [] "p" ⟨some "T", some ["Au"], some "Abs", some 2020⟩
       ⟨some "A", none⟩ "A" 0 "e1") = (.validationFailed, []) ∧
    (markRead false [] "p" ⟨some "T", some ["Au"], some "Abs", some 2020⟩
       ⟨some "A", some ""⟩ "A" 0 "e1") = (.validationFailed, []) := by decide
